import Mathlib

/-
Verification of the edge-to-bus telemetry core of the ias repository:
the JSON wire message (PythonPlugin/src/python/IasPlugin/JsonMsg.py),
the UDP batching sender (PythonPlugin/src/python/IasPlugin/UdpPlugin.py),
the canonical bus value (Support/src/python/IasSupport/IasValue.py) and
the bus consumer loop (Support/src/python/IasSupport/KafkaValueConsumer.py).

Embedding conventions:
* Python strings are embedded as `List Char`;
* Python dictionaries produced by `json.loads` are embedded as structures
  of `Option`-valued fields (a key that is absent is `none`);
* a Python function that can raise is embedded as an `Except` value whose
  error component carries the message of the exception;
* CPython evaluates `x is '('`, `x is ')'`, `x is ""` and `n is 1` on
  interned one-character strings / small integers, so these comparisons
  behave as equality and are embedded as equality.
-/

/-- Python strings, embedded as lists of characters. -/
abbrev Str := List Char

/-- Python `s.split(sep)` for a one-character separator:
`"".split(sep) == [""]` and adjacent separators produce empty pieces,
exactly as in CPython for a non-empty explicit separator. -/
def splitOnChar (sep : Char) : Str → List Str
  | [] => [[]]
  | c :: cs =>
    if c = sep then [] :: splitOnChar sep cs
    else
      match splitOnChar sep cs with
      | [] => [[c]]
      | p :: ps => (c :: p) :: ps

/-- Whether `needle` is a leading piece of `hay` (helper for `strContains`). -/
def leadsWith : Str → Str → Bool
  | [], _ => true
  | _ :: _, [] => false
  | n :: ns, h :: hs => n = h && leadsWith ns hs

/-- Python substring containment: the truthiness of `hay.count(needle)`
(`str.count` counts non-overlapping occurrences; it is truthy exactly when
`needle` occurs somewhere in `hay`). -/
def strContains (needle : Str) : Str → Bool
  | [] => needle.isEmpty
  | c :: cs => leadsWith needle (c :: cs) || strContains needle cs

/-- The literal token `"IASIO"`. -/
def iasioToken : Str := "IASIO".data

/-- Truthiness of `t.count("IASIO")` in `getIdFromFullRunningId`. -/
def hasIasioToken (t : Str) : Bool := strContains iasioToken t

/-- `IasValue.getIdFromFullRunningId` from `Support/src/python/IasSupport/IasValue.py`.
`frid is None` is out of scope for a string argument; CPython's interning makes
`frid is ""`, `iasioId[0] is not '('`, `is not ')'` and `count(':') is not 1`
behave as (in)equality, and they are embedded as such.  `iasioId[0]` and
`iasioId[len(iasioId)-1]` are embedded with `head?`/`getLast?`: the selected
segment contains `"IASIO"` so it is never empty and no IndexError can occur. -/
def getIdFromFullRunningId (frid : Str) : Except Str Str :=
  if frid = [] then Except.error "The FullRuning ID cannot be empty".data
  else
    let parts := splitOnChar '@' frid
    let iasioIdList := parts.filter hasIasioToken
    if iasioIdList.length ≠ 1 then
      Except.error ("Invalid format of fullRunningId".data ++ frid)
    else
      let iasioId := iasioIdList.headD []
      if iasioId.head? = some '(' ∧ iasioId.getLast? = some ')' ∧
          iasioId.count ':' = 1 then
        Except.ok ((splitOnChar ':' ((iasioId.drop 1).dropLast)).headD [])
      else
        Except.error ("Invalid format of fullRunningId".data ++ frid)

/-- The `@`-separated segments of `frid` whose text contains the token `IASIO`
(the claim's notion of an IASIO-tagged segment). -/
def iasioSegments (frid : Str) : List Str :=
  (splitOnChar '@' frid).filter hasIasioToken

/-- The claim's well-formedness of the matching segment: an opening and a
closing parenthesis and exactly one colon. -/
def wellFormedSegment (t : Str) : Prop :=
  t.head? = some '(' ∧ t.getLast? = some ')' ∧ t.count ':' = 1

/-- The claim's extracted id: the name part before the colon of the segment
with its surrounding parentheses stripped. -/
def segmentName (t : Str) : Str :=
  ((t.drop 1).dropLast).takeWhile (fun c => c != ':')

/-- The character of the decimal digit `n`. -/
def digitChar (n : Nat) : Char := Char.ofNat (48 + n)

/-- Decimal digits of `n`, most significant first, structured with fuel so
that the kernel can evaluate it; fuel `n + 1` always suffices. -/
def natDigitsAux : Nat → Nat → Str
  | 0, _ => []
  | fuel + 1, n =>
    if n < 10 then [digitChar n]
    else natDigitsAux fuel (n / 10) ++ [digitChar (n % 10)]

/-- Decimal rendering of a natural number, as Python `"%d" % n`. -/
def natDigits (n : Nat) : Str := natDigitsAux (n + 1) n

/-- Python `"%0wd" % n`: decimal digits of `n` left-padded with zeros to
width `w` (longer when `n` needs more digits). -/
def padNat (w n : Nat) : Str :=
  List.replicate (w - (natDigits n).length) '0' ++ natDigits n

/-- A Python `datetime.datetime` value (naive, microsecond resolution). -/
structure PyDatetime where
  year : Nat
  month : Nat
  day : Nat
  hour : Nat
  minute : Nat
  second : Nat
  microsecond : Nat
deriving DecidableEq

/-- The `"YYYY-MM-DDTHH:MM:SS"` part of `datetime.isoformat()`. -/
def isoDatePart (t : PyDatetime) : Str :=
  padNat 4 t.year ++ '-' :: (padNat 2 t.month ++ '-' :: (padNat 2 t.day ++
    'T' :: (padNat 2 t.hour ++ ':' :: (padNat 2 t.minute ++
    ':' :: padNat 2 t.second))))

/-- Python `datetime.isoformat()`: the fractional `".uuuuuu"` part is present
only when `microsecond` is non-zero. -/
def pyIsoformat (t : PyDatetime) : Str :=
  isoDatePart t ++
    if t.microsecond = 0 then [] else '.' :: padNat 6 t.microsecond

/-- `JsonMsg.isoTimestamp` from `PythonPlugin/src/python/IasPlugin/JsonMsg.py`:
format the passed datetime as ISO with millisecond precision by splitting the
microsecond-resolution ISO form at `'.'` and keeping the first 3 fractional
digits.  `splittedTStamp[1]` raises IndexError when the split has fewer than
two pieces. -/
def isoTimestamp (tStamp : PyDatetime) : Except Str Str :=
  let isoTStamp := pyIsoformat tStamp
  let splittedTStamp := splitOnChar '.' isoTStamp
  match splittedTStamp with
  | p0 :: p1 :: _ =>
    let milliseconds := p1.take 3
    Except.ok (p0 ++ '.' :: milliseconds)
  | _ => Except.error "IndexError: list index out of range".data

/-- Python `str(datetime)`: like `isoformat()` with a space separator. -/
def pyStrOfDatetime (t : PyDatetime) : Str :=
  padNat 4 t.year ++ '-' :: (padNat 2 t.month ++ '-' :: (padNat 2 t.day ++
    ' ' :: (padNat 2 t.hour ++ ':' :: (padNat 2 t.minute ++
    ':' :: padNat 2 t.second)))) ++
    if t.microsecond = 0 then [] else '.' :: padNat 6 t.microsecond

/-- A Python runtime value, as far as the plugin code distinguishes them. -/
inductive PyVal where
  | none : PyVal
  | str : Str → PyVal
  | int : Int → PyVal
  | dt : PyDatetime → PyVal
deriving DecidableEq

/-- Python `str(x)` on the values of `PyVal`. -/
def pyStrOf : PyVal → Str
  | PyVal.none => "None".data
  | PyVal.str s => s
  | PyVal.int n => if n < 0 then '-' :: natDigits n.natAbs else natDigits n.natAbs
  | PyVal.dt t => pyStrOfDatetime t

/-- Python `s.upper()` (the strings involved are ASCII, where `str.upper`
and `Char.toUpper` agree). -/
def pyUpper (s : Str) : Str := s.map Char.toUpper

/-- `JsonMsg.IAS_SUPPORTED_TYPES` from
`PythonPlugin/src/python/IasPlugin/JsonMsg.py`: the types supported by
the IAS. -/
def IAS_SUPPORTED_TYPES : List Str :=
  ["LONG".data, "INT".data, "SHORT".data, "BYTE".data, "DOUBLE".data,
   "FLOAT".data, "BOOLEAN".data, "CHAR".data, "STRING".data, "ALARM".data]

/-- The fields of a constructed `JsonMsg` (the four json field names are the
string constants `id`, `timestamp`, `value`, `valueType` set at the end of
`__init__` and used by `dumps`). -/
structure JsonMsg where
  id : Str
  timestamp : Str
  value : Str
  valueType : Str
deriving DecidableEq

/-- `JsonMsg.__init__` from `PythonPlugin/src/python/IasPlugin/JsonMsg.py`.
CPython evaluates the default parameter `timestamp=datetime.utcnow()` ONCE,
when the `def` statement runs at module load: `moduleLoadTime` is that value
and an omitted `timestamp` argument (`Option.none`) uses it.  A raise inside
`__init__` constructs no object, which `Except.error` captures. -/
def jsonMsgInit (moduleLoadTime : PyDatetime) (id value valueType : PyVal)
    (timestamp : Option PyVal) : Except Str JsonMsg :=
  let idS := pyStrOf id
  if idS = [] then Except.error "Invalid empty ID".data
  else
    match timestamp.getD (PyVal.dt moduleLoadTime) with
    | PyVal.dt tsVal =>
      match isoTimestamp tsVal with
      | Except.error e => Except.error e
      | Except.ok tsS =>
        let valueS := pyStrOf value
        if valueS = [] then Except.error "Invalid empty value".data
        else
          let valueTypeS := pyUpper (pyStrOf valueType)
          if valueTypeS = [] then Except.error "Invalid empty type".data
          else if valueTypeS ∈ IAS_SUPPORTED_TYPES then
            Except.ok
              { id := idS
                timestamp := tsS
                value := valueS
                valueType := valueTypeS }
          else Except.error ("Unknown type: ".data ++ valueTypeS)
    | _ => Except.error "The timestamp should be of type datetime (UCT)".data

/-- A call `JsonMsg(id, value, valueType)` made at wall-clock time `callTime`
with the `timestamp` argument omitted.  CPython evaluated the default
`timestamp=datetime.utcnow()` once, at class-definition time
(`moduleLoadTime`); the clock at call time is never consulted, which this
wrapper makes explicit: `callTime` does not occur in the body. -/
def jsonMsgInitAtTime (moduleLoadTime callTime : PyDatetime)
    (id value valueType : PyVal) : Except Str JsonMsg :=
  jsonMsgInit moduleLoadTime id value valueType Option.none

/-- The state of a `UdpPlugin`
(`PythonPlugin/src/python/IasPlugin/UdpPlugin.py`) as the claims observe it
(source attribute names without the leading underscore).  `mPointsToSend` is
a CPython dict, insertion-ordered and updated in place.  `threadStarted`
records whether `Thread.start` was ever called on the underlying thread
object: `UdpPlugin.start` overrides `Thread.start` and never calls it, so no
operation of the class sets it.  `sent` is the transcript of monitor points
handed to `_send`. -/
structure UdpPluginState where
  mPointsToSend : List (Str × JsonMsg)
  shuttedDown : Bool
  started : Bool
  threadStarted : Bool
  sockClosed : Bool
  sent : List JsonMsg
deriving DecidableEq

/-- `UdpPlugin.__init__`: empty buffer, not shut down, not started. -/
def udpPluginInit : UdpPluginState :=
  { mPointsToSend := []
    shuttedDown := false
    started := false
    threadStarted := false
    sockClosed := false
    sent := [] }

/-- CPython dict assignment `d[k] = v`: updates an existing slot in place
(keeping its position) or appends a new one. -/
def dictInsert (k : Str) (v : JsonMsg) :
    List (Str × JsonMsg) → List (Str × JsonMsg)
  | [] => [(k, v)]
  | (k', v') :: rest =>
    if k' = k then (k, v) :: rest else (k', v') :: dictInsert k v rest

/-- `UdpPlugin.start`: sets `_started` and creates a `Timer` object, but
never calls `start()` on it, so `_sendMonitorPoints` is never scheduled; the
underlying thread is not started either. -/
def udpStart (st : UdpPluginState) : UdpPluginState :=
  { st with started := true }

/-- `UdpPlugin.submit` as the source reads.  The written parameter list
`def submit(self, id, timestamp=datetime.utcnow(), value, valueType)` is a
SyntaxError in Python (non-default argument follows default argument), so
the module cannot even be imported; the body is embedded as written.  The
call `JsonMsg(id, timestamp, value, valueType)` passes its arguments
positionally into `JsonMsg.__init__(self, id, value, valueType, timestamp)`:
`value` receives the submitted timestamp, `valueType` the submitted value
and `timestamp` the submitted valueType.  Returns the state after the call
and the message of the raised exception, if any; the buffer is only changed
when nothing is raised, since `self._MPointsToSend[msg.id]=msg` runs last. -/
def udpSubmit (moduleLoadTime : PyDatetime) (st : UdpPluginState)
    (id timestamp value valueType : PyVal) :
    UdpPluginState × Option Str :=
  if id = PyVal.none then (st, some "The ID can't be None".data)
  else if timestamp = PyVal.none then
    (st, some "The timestamp can't be None".data)
  else if value = PyVal.none then (st, some "The value can't be None".data)
  else if valueType = PyVal.none then
    (st, some "The type can't be None".data)
  else if st.shuttedDown then (st, Option.none)
  else
    match jsonMsgInit moduleLoadTime id timestamp value (some valueType) with
    | Except.error e => (st, some e)
    | Except.ok msg =>
      ({ st with mPointsToSend := dictInsert msg.id msg st.mPointsToSend },
        Option.none)

/-- The drain of one iteration of `_sendMonitorPoints`: atomically swap out
the buffered collection and hand each buffered value to `_send`.  (With a
non-empty buffer `_send` itself would raise AttributeError — it reads
`self.sock` while the attribute is `self._sock` — and the `Timer` that
should invoke `_sendMonitorPoints` is never started; the drain is still
modelled so that what a flush would transmit is observable.) -/
def udpDrainOnce (st : UdpPluginState) : UdpPluginState :=
  { st with
    mPointsToSend := []
    sent := st.sent ++ st.mPointsToSend.map Prod.snd }

/-- `UdpPlugin.shutdown`: sets `_shuttedDown` under the lock; when
`_started`, cancels the (never scheduled) timer, then calls `self.join(1)` —
`Thread.join` raises `RuntimeError("cannot join thread before it is
started")` because the underlying thread was never started — and only after
that would it close the socket. -/
def udpShutdown (st : UdpPluginState) : UdpPluginState × Option Str :=
  let st1 := { st with shuttedDown := true }
  if st1.started then
    if st1.threadStarted then ({ st1 with sockClosed := true }, Option.none)
    else (st1, some "cannot join thread before it is started".data)
  else (st1, Option.none)

/-- A JSON value as produced by `json.loads` (JSON `null` is Python `None`). -/
inductive JVal where
  | null : JVal
  | bool : Bool → JVal
  | num : Int → JVal
  | str : Str → JVal
  | arr : List JVal → JVal
  | obj : List (Str × JVal) → JVal

instance : Inhabited JVal := ⟨JVal.null⟩

/-- A JSON object of the canonical bus payload: exactly the keys that
`IasValue.__init__` reads, each `some` when the key is present in the decoded
dictionary (the claim's inputs carry no other keys). -/
structure JObj where
  value : Option JVal
  valueType : Option JVal
  fullRunningId : Option JVal
  mode : Option JVal
  iasValidity : Option JVal
  depsFullRunningIds : Option JVal
  props : Option JVal
  pluginProductionTStamp : Option JVal
  sentToConverterTStamp : Option JVal
  receivedFromPluginTStamp : Option JVal
  convertedProductionTStamp : Option JVal
  sentToBsdbTStamp : Option JVal
  readFromBsdbTStamp : Option JVal
  dasuProductionTStamp : Option JVal
deriving Inhabited

/-- `IasValue.getValue(jsonDict, key)`: the dict value when the key exists,
else `None`.  A key present with JSON `null` is decoded by `json.loads` to
Python `None` as well, so it is indistinguishable from an absent key. -/
def getValue : Option JVal → Option JVal
  | some JVal.null => Option.none
  | v => v

/-- Reading a required key, `self.fromJson["key"]`: raises KeyError when the
key is absent. -/
def reqKey : Option JVal → Except Str JVal
  | Option.none => Except.error "KeyError".data
  | some v => Except.ok v

/-- One optional-timestamp stanza of `IasValue.__init__`: read the key with
`getValue`; when the value is present, parse it with
`Iso8601TStamp.Iso8601ToDatetime` — a module that is not under src/,
abstracted as the parameter `parseTs`; an exception there propagates. -/
def readTStamp (parseTs : JVal → Except Str PyDatetime) (f : Option JVal) :
    Except Str (Option JVal × Option PyDatetime) :=
  match getValue f with
  | Option.none => Except.ok (Option.none, Option.none)
  | some j =>
    match parseTs j with
    | Except.error e => Except.error e
    | Except.ok d => Except.ok (some j, some d)

/-- The fields of a decoded `IasValue`
(`Support/src/python/IasSupport/IasValue.py`): each datum is stored both in
its raw json form and parsed, exactly as `__init__` assigns them.  The
parsed `valueType`, `mode` and `iasValidity` come from enum modules that are
not under src/ and are carried abstractly as the json values their parsers
return. -/
structure IasValue where
  value : JVal
  valueTypeStr : JVal
  valueType : JVal
  fullRunningId : JVal
  id : Str
  dependentsFullRuningIds : Option JVal
  modeStr : JVal
  mode : JVal
  iasValidityStr : JVal
  iasValidity : JVal
  props : Option JVal
  pluginProductionTStampStr : Option JVal
  pluginProductionTStamp : Option PyDatetime
  sentToConverterTStampStr : Option JVal
  sentToConverterTStamp : Option PyDatetime
  receivedFromPluginTStampStr : Option JVal
  receivedFromPluginTStamp : Option PyDatetime
  convertedProductionTStampStr : Option JVal
  convertedProductionTStamp : Option PyDatetime
  sentToBsdbTStampStr : Option JVal
  sentToBsdbTStamp : Option PyDatetime
  readFromBsdbTStampStr : Option JVal
  readFromBsdbTStamp : Option PyDatetime
  dasuProductionTStampStr : Option JVal
  dasuProductionTStamp : Option PyDatetime
  fromJson : JObj
deriving Inhabited

/-- `IasValue.__init__(jsonStr)` after `json.loads`, reading and validating
each field in source order.  The enum parsers `IASType.fromString`,
`OperationalMode.fromString`, `Validity.fromString` and the timestamp parser
`Iso8601TStamp.Iso8601ToDatetime` live in modules that are not under src/;
they are taken as parameters, so everything proved below holds for every
implementation of them.  `getIdFromFullRunningId` (which is under src/)
operates on a string: a non-string `fullRunningId` raises AttributeError at
`frid.split`, and a JSON `null` is Python `None`, caught by the function's
own `frid is None` check with its own message. -/
def iasValueFromJson
    (typeFromString modeFromString validityFromString :
      JVal → Except Str JVal)
    (parseTs : JVal → Except Str PyDatetime) (x : JObj) :
    Except Str IasValue := do
  let value ← reqKey x.value
  let valueTypeStr ← reqKey x.valueType
  let valueType ← typeFromString valueTypeStr
  let fullRunningId ← reqKey x.fullRunningId
  let id ←
    (match fullRunningId with
      | JVal.str s => getIdFromFullRunningId s
      | JVal.null => Except.error "The FullRuning ID cannot be empty".data
      | _ => Except.error "AttributeError".data)
  let dependentsFullRuningIds := getValue x.depsFullRunningIds
  let modeStr ← reqKey x.mode
  let mode ← modeFromString modeStr
  let iasValidityStr ← reqKey x.iasValidity
  let iasValidity ← validityFromString iasValidityStr
  let props := getValue x.props
  let p1 ← readTStamp parseTs x.pluginProductionTStamp
  let p2 ← readTStamp parseTs x.sentToConverterTStamp
  let p3 ← readTStamp parseTs x.receivedFromPluginTStamp
  let p4 ← readTStamp parseTs x.convertedProductionTStamp
  let p5 ← readTStamp parseTs x.sentToBsdbTStamp
  let p6 ← readTStamp parseTs x.readFromBsdbTStamp
  let p7 ← readTStamp parseTs x.dasuProductionTStamp
  Except.ok
    { value := value
      valueTypeStr := valueTypeStr
      valueType := valueType
      fullRunningId := fullRunningId
      id := id
      dependentsFullRuningIds := dependentsFullRuningIds
      modeStr := modeStr
      mode := mode
      iasValidityStr := iasValidityStr
      iasValidity := iasValidity
      props := props
      pluginProductionTStampStr := p1.1
      pluginProductionTStamp := p1.2
      sentToConverterTStampStr := p2.1
      sentToConverterTStamp := p2.2
      receivedFromPluginTStampStr := p3.1
      receivedFromPluginTStamp := p3.2
      convertedProductionTStampStr := p4.1
      convertedProductionTStamp := p4.2
      sentToBsdbTStampStr := p5.1
      sentToBsdbTStamp := p5.2
      readFromBsdbTStampStr := p6.1
      readFromBsdbTStamp := p6.2
      dasuProductionTStampStr := p7.1
      dasuProductionTStamp := p7.2
      fromJson := x }

/-- `IasValue.toJSonString`: the dictionary handed to `json.dumps` — the
five required fields always, each optional field only when its stored string
form is not `None`, so an absent optional field never appears as a key. -/
def toJSonDict (v : IasValue) : JObj :=
  { value := some v.value
    valueType := some v.valueTypeStr
    fullRunningId := some v.fullRunningId
    mode := some v.modeStr
    iasValidity := some v.iasValidityStr
    depsFullRunningIds := v.dependentsFullRuningIds
    props := v.props
    pluginProductionTStamp := v.pluginProductionTStampStr
    sentToConverterTStamp := v.sentToConverterTStampStr
    receivedFromPluginTStamp := v.receivedFromPluginTStampStr
    convertedProductionTStamp := v.convertedProductionTStampStr
    sentToBsdbTStamp := v.sentToBsdbTStampStr
    readFromBsdbTStamp := v.readFromBsdbTStampStr
    dasuProductionTStamp := v.dasuProductionTStampStr }

/-- The claim's "populated" optional fields: no optional key present with
the JSON value `null` (`json.loads` maps `null` to Python `None`, which the
code cannot tell from an absent key). -/
def populatedOptionals (x : JObj) : Prop :=
  x.depsFullRunningIds ≠ some JVal.null ∧ x.props ≠ some JVal.null ∧
  x.pluginProductionTStamp ≠ some JVal.null ∧
  x.sentToConverterTStamp ≠ some JVal.null ∧
  x.receivedFromPluginTStamp ≠ some JVal.null ∧
  x.convertedProductionTStamp ≠ some JVal.null ∧
  x.sentToBsdbTStamp ≠ some JVal.null ∧
  x.readFromBsdbTStamp ≠ some JVal.null ∧
  x.dasuProductionTStamp ≠ some JVal.null

/-- The record-processing of one polled batch in `KafkaValueConsumer.run`
(`Support/src/python/IasSupport/KafkaValueConsumer.py`): each record is
decoded and handed to `listener.iasValueReceived`, in arrival order.  The
`try` in the source wraps only `self.consumer.poll(500)`: an exception
raised while decoding one record propagates out of both `for` loops and the
`while` loop, terminating the thread.  Records are modelled at the decoded
json level (`JObj`); the result is the list of listener invocations and the
error that killed the loop, if any. -/
def pollRecords (decode : JObj → Except Str IasValue) :
    List JObj → List IasValue × Option Str
  | [] => ([], Option.none)
  | r :: rs =>
    match decode r with
    | Except.error e => ([], some e)
    | Except.ok v =>
      let rest := pollRecords decode rs
      (v :: rest.1, rest.2)

/-- Modelled from the spec: `IASType.fromString` (module `IasPlugin.IasType`,
not under src/) — the spec closes the value types to the ten literals of its
data model; the parse succeeds exactly on one of them. -/
def typeFromStringModel (j : JVal) : Except Str JVal :=
  match j with
  | JVal.str s =>
    if s ∈ IAS_SUPPORTED_TYPES then Except.ok (JVal.str s)
    else Except.error "ValueError".data
  | _ => Except.error "ValueError".data

/-- Modelled from the spec: an enum `fromString` for the closed sets of
operational modes and validities (modules not under src/, members not named
by the spec): accept any string. -/
def enumFromStringModel (j : JVal) : Except Str JVal :=
  match j with
  | JVal.str _ => Except.ok j
  | _ => Except.error "ValueError".data

/-- Modelled from the spec: `Iso8601TStamp.Iso8601ToDatetime` (module not
under src/) — the parsed instant is irrelevant to the claims; any present
value parses to a fixed instant. -/
def parseTsModel (_ : JVal) : Except Str PyDatetime :=
  Except.ok ⟨2018, 1, 1, 0, 0, 0, 1⟩

/-- A well-formed canonical record for the consumer tests: the five required
fields, no optional ones. -/
def c4goodRecord : JObj :=
  { value := some (JVal.str "10".data)
    valueType := some (JVal.str "LONG".data)
    fullRunningId := some (JVal.str "(compB:IASIO)".data)
    mode := some (JVal.str "OPERATIONAL".data)
    iasValidity := some (JVal.str "RELIABLE".data)
    depsFullRunningIds := Option.none
    props := Option.none
    pluginProductionTStamp := Option.none
    sentToConverterTStamp := Option.none
    receivedFromPluginTStamp := Option.none
    convertedProductionTStamp := Option.none
    sentToBsdbTStamp := Option.none
    readFromBsdbTStamp := Option.none
    dasuProductionTStamp := Option.none }

/-- A malformed canonical record: the required `mode` key is missing, so its
decode raises KeyError. -/
def c4badRecord : JObj :=
  { c4goodRecord with mode := Option.none }

/-- The round-trip test object for C1: the five required fields and a proper
subset of the optional ones populated (deps, props and two of the seven
lineage timestamps). -/
def c1obj : JObj :=
  { value := some (JVal.str "10".data)
    valueType := some (JVal.str "LONG".data)
    fullRunningId := some (JVal.str "(compA:OtherType)@(compB:IASIO)".data)
    mode := some (JVal.str "OPERATIONAL".data)
    iasValidity := some (JVal.str "RELIABLE".data)
    depsFullRunningIds := some (JVal.arr [JVal.str "(a:IASIO)".data])
    props := some (JVal.obj [("k".data, JVal.str "v".data)])
    pluginProductionTStamp := some (JVal.str "2018-05-09T16:15:05.775".data)
    sentToConverterTStamp := Option.none
    receivedFromPluginTStamp := some (JVal.str "2018-05-09T16:15:06.100".data)
    convertedProductionTStamp := Option.none
    sentToBsdbTStamp := Option.none
    readFromBsdbTStamp := Option.none
    dasuProductionTStamp := Option.none }

/-- The canonical value decoded from `c1obj` under the modelled externals. -/
def c1value : IasValue :=
  (iasValueFromJson typeFromStringModel enumFromStringModel
    enumFromStringModel parseTsModel c1obj).toOption.getD default

/-! ## Theorems -/

theorem splitOnChar_ne_nil (sep : Char) (s : Str) : splitOnChar sep s ≠ [] := by
  induction s with
  | nil => simp [splitOnChar]
  | cons c cs ih =>
    simp only [splitOnChar]
    split
    · simp
    · split
      · simp
      · simp

theorem splitOnChar_of_not_mem {sep : Char} {s : Str} (h : sep ∉ s) :
    splitOnChar sep s = [s] := by
  induction s with
  | nil => rfl
  | cons c cs ih =>
    have hc : ¬ c = sep := fun hc => h (hc ▸ List.mem_cons_self c cs)
    have hcs : sep ∉ cs := fun hm => h (List.mem_cons_of_mem c hm)
    simp only [splitOnChar, if_neg hc, ih hcs]

theorem splitOnChar_append {sep : Char} {a : Str} (b : Str) (h : sep ∉ a) :
    splitOnChar sep (a ++ sep :: b) = a :: splitOnChar sep b := by
  induction a with
  | nil => simp [splitOnChar]
  | cons c cs ih =>
    have hc : ¬ c = sep := fun hc => h (hc ▸ List.mem_cons_self c cs)
    have hcs : sep ∉ cs := fun hm => h (List.mem_cons_of_mem c hm)
    simp only [List.cons_append, splitOnChar, if_neg hc, List.append_eq]
    rw [ih hcs]

theorem splitOnChar_headD_eq_takeWhile (sep : Char) (s : Str) :
    (splitOnChar sep s).headD [] = s.takeWhile (fun c => c != sep) := by
  induction s with
  | nil => rfl
  | cons c cs ih =>
    by_cases hc : c = sep
    · subst hc; simp [splitOnChar, List.takeWhile]
    · have := splitOnChar_ne_nil sep cs
      simp only [splitOnChar, if_neg hc]
      cases hsp : splitOnChar sep cs with
      | nil => exact absurd hsp this
      | cons p ps =>
        rw [hsp] at ih
        simp only [List.headD_cons] at ih
        have hb : (c != sep) = true := by simp [hc]
        simp [List.takeWhile, hb, ih]

theorem hasIasioToken_nil : hasIasioToken [] = false := rfl

/-- C2: id extraction from a `fullRunningId` succeeds exactly on strings whose
`@`-separated segments contain exactly one segment with the token `IASIO` and
whose matching segment starts with `(`, ends with `)` and contains exactly one
colon; the extracted id is then the name part before the colon of that segment
with its surrounding parentheses stripped.  On every other string the
extraction raises a parse error and no id is returned. -/
theorem getIdFromFullRunningId_spec (frid r : Str) :
    getIdFromFullRunningId frid = Except.ok r ↔
      ∃ seg, iasioSegments frid = [seg] ∧ wellFormedSegment seg ∧
        r = segmentName seg := by
  constructor
  · intro h
    by_cases h0 : frid = []
    · subst h0; simp [getIdFromFullRunningId] at h
    · by_cases hlen : ((splitOnChar '@' frid).filter hasIasioToken).length = 1
      · obtain ⟨seg, hseg⟩ := List.length_eq_one.mp hlen
        simp only [getIdFromFullRunningId, if_neg h0, hseg] at h
        simp only [List.length_cons, List.length_nil, List.headD_cons] at h
        rw [if_neg (by omega)] at h
        by_cases hwf : seg.head? = some '(' ∧ seg.getLast? = some ')' ∧
            seg.count ':' = 1
        · rw [if_pos hwf] at h
          refine ⟨seg, by rw [iasioSegments, hseg], hwf, ?_⟩
          cases h
          rw [segmentName, splitOnChar_headD_eq_takeWhile]
        · rw [if_neg hwf] at h
          exact absurd h (by simp)
      · simp only [getIdFromFullRunningId, if_neg h0, if_pos hlen] at h
        exact absurd h (by simp)
  · rintro ⟨seg, hseg, hwf, hr⟩
    rw [iasioSegments] at hseg
    have hlen : ((splitOnChar '@' frid).filter hasIasioToken).length = 1 := by
      rw [hseg]; rfl
    have h0 : frid ≠ [] := by
      intro h0; subst h0
      simp [splitOnChar, hasIasioToken_nil] at hseg
    obtain ⟨w1, w2, w3⟩ := hwf
    simp only [getIdFromFullRunningId, if_neg h0, hseg]
    simp only [List.length_cons, List.length_nil, List.headD_cons]
    rw [if_neg (by omega), if_pos ⟨w1, w2, w3⟩, hr, segmentName,
      splitOnChar_headD_eq_takeWhile]

theorem natDigitsAux_digit {fuel n : Nat} {c : Char} (h : c ∈ natDigitsAux fuel n) :
    ∃ k, k < 10 ∧ c = digitChar k := by
  induction fuel generalizing n with
  | zero => simp [natDigitsAux] at h
  | succ fuel ih =>
    simp only [natDigitsAux] at h
    split at h
    · next hn => exact ⟨n, hn, List.mem_singleton.mp h⟩
    · rcases List.mem_append.mp h with h' | h'
      · exact ih h'
      · exact ⟨n % 10, Nat.mod_lt _ (by omega), List.mem_singleton.mp h'⟩

theorem dot_not_mem_natDigits (n : Nat) : '.' ∉ natDigits n := by
  intro h
  obtain ⟨k, hk, he⟩ := natDigitsAux_digit h
  interval_cases k <;> simp [digitChar] at he

theorem dot_not_mem_padNat (w n : Nat) : '.' ∉ padNat w n := by
  intro h
  rcases List.mem_append.mp h with h' | h'
  · exact absurd (List.eq_of_mem_replicate h') (by decide)
  · exact dot_not_mem_natDigits n h'

theorem dot_not_mem_isoDatePart (t : PyDatetime) : '.' ∉ isoDatePart t := by
  intro h
  simp only [isoDatePart, List.mem_append, List.mem_cons] at h
  rcases h with h | h | h | h | h | h | h | h | h | h | h
  all_goals first
    | exact dot_not_mem_padNat _ _ h
    | simp at h

theorem natDigitsAux_congr : ∀ n f₁ f₂ : Nat, n < f₁ → n < f₂ →
    natDigitsAux f₁ n = natDigitsAux f₂ n := by
  intro n
  induction n using Nat.strong_induction_on with
  | _ n ih =>
    intro f₁ f₂ h₁ h₂
    match f₁, f₂ with
    | g₁ + 1, g₂ + 1 =>
      simp only [natDigitsAux]
      split
      · rfl
      · next hn =>
        rw [ih (n / 10) (by omega) g₁ g₂ (by omega) (by omega)]

theorem natDigits_small {n : Nat} (h : n < 10) : natDigits n = [digitChar n] := by
  simp [natDigits, natDigitsAux, h]

theorem natDigits_step {n : Nat} (h : 10 ≤ n) :
    natDigits n = natDigits (n / 10) ++ [digitChar (n % 10)] := by
  rw [natDigits, natDigits]
  conv_lhs => rw [natDigitsAux]
  rw [if_neg (by omega)]
  rw [natDigitsAux_congr (n / 10) n (n / 10 + 1) (by omega) (by omega)]

theorem natDigits_length_pos (n : Nat) : 0 < (natDigits n).length := by
  by_cases h : n < 10
  · rw [natDigits_small h]; simp
  · rw [natDigits_step (by omega)]; simp

theorem natDigits_length_le (k : Nat) : ∀ n, n < 10 ^ (k + 1) →
    (natDigits n).length ≤ k + 1 := by
  induction k with
  | zero =>
    intro n h
    rw [natDigits_small (by simpa using h)]
    simp
  | succ k ih =>
    intro n h
    by_cases hn : n < 10
    · rw [natDigits_small hn]; simp
    · rw [natDigits_step (by omega)]
      have hd : n / 10 < 10 ^ (k + 1) := by
        rw [Nat.div_lt_iff_lt_mul (by norm_num)]
        calc n < 10 ^ (k + 1 + 1) := h
        _ = 10 ^ (k + 1) * 10 := by ring
      have := ih (n / 10) hd
      simp only [List.length_append, List.length_cons, List.length_nil]
      omega

theorem padNat_three {r : Nat} (h : r < 1000) :
    padNat 3 r = [digitChar (r / 100), digitChar (r / 10 % 10), digitChar (r % 10)] := by
  by_cases h1 : r < 10
  · have e1 : r / 100 = 0 := by omega
    have e2 : r / 10 % 10 = 0 := by omega
    have e3 : r % 10 = r := by omega
    rw [padNat, natDigits_small h1, e1, e2, e3]
    simp [List.replicate]
    rfl
  · by_cases h2 : r < 100
    · have e1 : r / 100 = 0 := by omega
      have e2 : r / 10 % 10 = r / 10 := by omega
      rw [padNat, natDigits_step (by omega), natDigits_small (by omega), e1, e2]
      simp [List.replicate]
      rfl
    · have e2 : r / 10 / 10 = r / 100 := by omega
      rw [padNat, natDigits_step (by omega), natDigits_step (by omega), e2,
        natDigits_small (by omega)]
      have e3 : r / 100 % 10 = r / 100 := by omega
      simp [List.replicate, e3]

theorem natDigits_thousand {q r : Nat} (hq : 1 ≤ q) (hr : r < 1000) :
    natDigits (1000 * q + r) =
      natDigits q ++ [digitChar (r / 100), digitChar (r / 10 % 10),
        digitChar (r % 10)] := by
  have e1 : (1000 * q + r) % 10 = r % 10 := by omega
  have e2 : (1000 * q + r) / 10 = 100 * q + r / 10 := by omega
  have e3 : (100 * q + r / 10) % 10 = r / 10 % 10 := by omega
  have e4 : (100 * q + r / 10) / 10 = 10 * q + r / 100 := by omega
  have e5 : (10 * q + r / 100) % 10 = r / 100 := by omega
  have e6 : (10 * q + r / 100) / 10 = q := by omega
  rw [natDigits_step (show (10 : Nat) ≤ 1000 * q + r by omega), e1, e2,
    natDigits_step (show (10 : Nat) ≤ 100 * q + r / 10 by omega), e3, e4,
    natDigits_step (show (10 : Nat) ≤ 10 * q + r / 100 by omega), e5, e6]
  simp

theorem padNat_six_decompose {n : Nat} (h : n < 1000000) :
    padNat 6 n = padNat 3 (n / 1000) ++ padNat 3 (n % 1000) := by
  by_cases hq : n / 1000 = 0
  · have hL : (natDigits n).length ≤ 3 := natDigits_length_le 2 n (by omega)
    have e : n % 1000 = n := by omega
    have h0 : padNat 3 0 = List.replicate 3 '0' := rfl
    rw [hq, e, h0, padNat, padNat, ← List.append_assoc, ← List.replicate_add]
    congr 2
    omega
  · have hq1 : 1 ≤ n / 1000 := by omega
    have hr : n % 1000 < 1000 := by omega
    have ht : natDigits n = natDigits (n / 1000) ++
        [digitChar (n % 1000 / 100), digitChar (n % 1000 / 10 % 10),
          digitChar (n % 1000 % 10)] := by
      have h' := natDigits_thousand hq1 hr
      rw [show 1000 * (n / 1000) + n % 1000 = n by omega] at h'
      exact h'
    rw [padNat, padNat, ht, padNat_three hr, List.append_assoc]
    congr 2
    simp only [List.length_append, List.length_cons, List.length_nil]
    omega

/-- C9 (failing input): `JsonMsg.isoTimestamp` is not total: on a datetime
whose microsecond component is zero, `isoformat()` has no fractional-second
part and no `'.'`, the split has a single piece, and `splittedTStamp[1]`
raises IndexError instead of returning a millisecond-precision string. -/
theorem isoTimestamp_microsecondZero :
    isoTimestamp ⟨2018, 5, 9, 16, 15, 5, 0⟩ =
      Except.error "IndexError: list index out of range".data := by rfl

/-- C6: for every datetime whose ISO form has a microsecond-resolution
fractional-second component, `isoTimestamp` returns the date-time part
followed by exactly the first 3 digits of the fractional component
(truncation: the result is the zero-padded rendering of `microsecond / 1000`,
so the remaining digits never influence it, and no rounding occurs). -/
theorem isoTimestamp_truncation (t : PyDatetime)
    (h0 : t.microsecond ≠ 0) (h6 : t.microsecond < 1000000) :
    isoTimestamp t =
      Except.ok (isoDatePart t ++ '.' :: padNat 3 (t.microsecond / 1000)) ∧
    padNat 3 (t.microsecond / 1000) = (padNat 6 t.microsecond).take 3 := by
  have htake : (padNat 6 t.microsecond).take 3 = padNat 3 (t.microsecond / 1000) := by
    rw [padNat_six_decompose h6,
      padNat_three (show t.microsecond / 1000 < 1000 by omega)]
    exact List.take_left' rfl
  have hsplit : splitOnChar '.' (pyIsoformat t) =
      [isoDatePart t, padNat 6 t.microsecond] := by
    rw [pyIsoformat, if_neg h0,
      splitOnChar_append _ (dot_not_mem_isoDatePart t),
      splitOnChar_of_not_mem (dot_not_mem_padNat 6 t.microsecond)]
  refine ⟨?_, htake.symm⟩
  simp only [isoTimestamp, hsplit]
  rw [htake]

/-- C5 (counterexample): `"long"` is not one of the ten enumeration literals,
yet constructing a message with `valueType="long"` succeeds, because the
constructor uppercases the given type before the membership check. -/
theorem jsonMsgInit_lowercase_type_accepted :
    "long".data ∉ IAS_SUPPORTED_TYPES ∧
    (jsonMsgInit ⟨2018, 5, 9, 16, 15, 5, 775444⟩ (PyVal.str "a".data)
      (PyVal.str "1".data) (PyVal.str "long".data)
      (some (PyVal.dt ⟨2018, 5, 9, 16, 15, 5, 775444⟩))).isOk = true := by
  exact ⟨by decide, by rfl⟩

/-- C5 (amended): constructing a `JsonMsg` with an id that is empty after
string conversion, an empty value, an empty type, or a `valueType` whose
uppercased string form is not in the ten-item enumeration, fails with a
descriptive `ValueError` and constructs no object. -/
theorem jsonMsgInit_validation (moduleLoadTime : PyDatetime)
    (id value valueType : PyVal) (timestamp : Option PyVal)
    (h : pyStrOf id = [] ∨ pyStrOf value = [] ∨
      pyUpper (pyStrOf valueType) = [] ∨
      pyUpper (pyStrOf valueType) ∉ IAS_SUPPORTED_TYPES) :
    (jsonMsgInit moduleLoadTime id value valueType timestamp).isOk = false := by
  simp only [jsonMsgInit]
  repeat' split
  all_goals first
    | rfl
    | (rcases h with h | h | h | h <;> simp_all)

theorem jsonMsgInit_validation_witness :
    (pyStrOf (PyVal.str "a".data) = [] ∨ pyStrOf (PyVal.str "".data) = [] ∨
      pyUpper (pyStrOf (PyVal.str "LONG".data)) = [] ∨
      pyUpper (pyStrOf (PyVal.str "LONG".data)) ∉ IAS_SUPPORTED_TYPES) ∧
    (jsonMsgInit ⟨2018, 5, 9, 16, 15, 5, 775444⟩ (PyVal.str "a".data)
      (PyVal.str "".data) (PyVal.str "LONG".data)
      (some (PyVal.dt ⟨2018, 5, 9, 16, 15, 5, 775444⟩))).isOk = false :=
  ⟨Or.inr (Or.inl rfl),
    jsonMsgInit_validation _ _ _ _ _ (Or.inr (Or.inl rfl))⟩

/-- C7 (failing input): two constructions without an explicit timestamp, made
at different wall-clock times, record the SAME timestamp: the one captured at
module load when the default `timestamp=datetime.utcnow()` was evaluated.
The call-time clock is never consulted, so no per-call capture happens. -/
theorem jsonMsg_default_timestamp_shared :
    (⟨2018, 5, 9, 16, 15, 6, 100000⟩ : PyDatetime) ≠
      ⟨2018, 5, 9, 16, 15, 7, 200000⟩ ∧
    jsonMsgInitAtTime ⟨2018, 5, 9, 16, 15, 5, 775444⟩
      ⟨2018, 5, 9, 16, 15, 6, 100000⟩ (PyVal.str "a".data)
      (PyVal.str "1".data) (PyVal.str "LONG".data) =
    jsonMsgInitAtTime ⟨2018, 5, 9, 16, 15, 5, 775444⟩
      ⟨2018, 5, 9, 16, 15, 7, 200000⟩ (PyVal.str "a".data)
      (PyVal.str "1".data) (PyVal.str "LONG".data) ∧
    jsonMsgInitAtTime ⟨2018, 5, 9, 16, 15, 5, 775444⟩
      ⟨2018, 5, 9, 16, 15, 6, 100000⟩ (PyVal.str "a".data)
      (PyVal.str "1".data) (PyVal.str "LONG".data) =
      Except.ok
        { id := "a".data
          timestamp := "2018-05-09T16:15:05.775".data
          value := "1".data
          valueType := "LONG".data } :=
  ⟨by decide, rfl, by rfl⟩

/-- C10: the constructor uppercases the given type before the membership
check, so any spelling whose uppercase form is one of the ten literals is
accepted and stored in its uppercase form; and every successfully
constructed message carries a valueType among the ten uppercase literals. -/
theorem jsonMsgInit_uppercases_type (moduleLoadTime d : PyDatetime)
    (id value valueType : PyVal)
    (hid : pyStrOf id ≠ []) (hval : pyStrOf value ≠ [])
    (hmicro : d.microsecond ≠ 0)
    (hvt : pyUpper (pyStrOf valueType) ∈ IAS_SUPPORTED_TYPES) :
    (∃ msg, jsonMsgInit moduleLoadTime id value valueType
        (some (PyVal.dt d)) = Except.ok msg ∧
        msg.valueType = pyUpper (pyStrOf valueType)) ∧
    (∀ (t : PyDatetime) (id' value' valueType' : PyVal) (ts : Option PyVal)
        (msg : JsonMsg),
        jsonMsgInit t id' value' valueType' ts = Except.ok msg →
        msg.valueType ∈ IAS_SUPPORTED_TYPES) := by
  constructor
  · have htype : pyUpper (pyStrOf valueType) ≠ [] := by
      intro hnil
      rw [hnil] at hvt
      revert hvt
      decide
    have hsplit : splitOnChar '.' (pyIsoformat d) =
        [isoDatePart d, padNat 6 d.microsecond] := by
      rw [pyIsoformat, if_neg hmicro,
        splitOnChar_append _ (dot_not_mem_isoDatePart d),
        splitOnChar_of_not_mem (dot_not_mem_padNat 6 d.microsecond)]
    refine ⟨{ id := pyStrOf id
              timestamp := isoDatePart d ++ '.' ::
                (padNat 6 d.microsecond).take 3
              value := pyStrOf value
              valueType := pyUpper (pyStrOf valueType) }, ?_, rfl⟩
    simp only [jsonMsgInit, isoTimestamp, hsplit, Option.getD,
      if_neg hid, if_neg hval, if_neg htype, if_pos hvt]
  · intro t id' value' valueType' ts msg hmsg
    simp only [jsonMsgInit] at hmsg
    repeat' split at hmsg
    all_goals cases hmsg
    all_goals simp_all

theorem jsonMsgInit_uppercases_type_witness :
    pyStrOf (PyVal.str "a".data) ≠ [] ∧
    pyStrOf (PyVal.str "1".data) ≠ [] ∧
    (⟨2018, 5, 9, 16, 15, 5, 775444⟩ : PyDatetime).microsecond ≠ 0 ∧
    pyUpper (pyStrOf (PyVal.str "long".data)) ∈ IAS_SUPPORTED_TYPES ∧
    ((∃ msg, jsonMsgInit ⟨2018, 5, 9, 16, 15, 5, 775444⟩
        (PyVal.str "a".data) (PyVal.str "1".data) (PyVal.str "long".data)
        (some (PyVal.dt ⟨2018, 5, 9, 16, 15, 5, 775444⟩)) = Except.ok msg ∧
        msg.valueType = pyUpper (pyStrOf (PyVal.str "long".data))) ∧
    (∀ (t : PyDatetime) (id' value' valueType' : PyVal) (ts : Option PyVal)
        (msg : JsonMsg),
        jsonMsgInit t id' value' valueType' ts = Except.ok msg →
        msg.valueType ∈ IAS_SUPPORTED_TYPES)) :=
  ⟨by decide, by decide, by decide, by decide,
    jsonMsgInit_uppercases_type _ _ _ _ _ (by decide) (by decide)
      (by decide) (by decide)⟩

/-- C3 (failing input): on a freshly started plugin, a fully valid
submission raises `ValueError` — `submit` hands its arguments to `JsonMsg`
transposed, so the datetime check sees the valueType string — the buffer
stays empty, and a drain of `_sendMonitorPoints` transmits nothing, where
the claim promises exactly one sample carrying the submitted value.
(Moreover the module cannot even load, since the written `submit` signature
is a Python SyntaxError, and the flush `Timer` is created but never
started.) -/
theorem udpSubmit_transposed_never_buffers :
    udpSubmit ⟨2018, 5, 9, 16, 15, 5, 775444⟩ (udpStart udpPluginInit)
      (PyVal.str "mp1".data) (PyVal.dt ⟨2018, 5, 9, 16, 15, 6, 1000⟩)
      (PyVal.str "10".data) (PyVal.str "LONG".data) =
      (udpStart udpPluginInit,
              some "The timestamp should be of type datetime (UCT)".data) ∧
    (udpDrainOnce (udpStart udpPluginInit)).sent = [] :=
  ⟨by rfl, by rfl⟩

/-- C8 (failing input): `shutdown()` on a started sender raises
RuntimeError out of `self.join(1)` — the underlying thread was never
started because `UdpPlugin.start` overrides `Thread.start` without calling
it — so already the first shutdown is not error-free, and so is a second
one.  The `_shuttedDown` flag is set before the raise, so a later `submit`
with valid arguments is indeed a silent no-op and nothing is transmitted. -/
theorem udpShutdown_raises_on_started :
    (udpShutdown (udpStart udpPluginInit)).2 =
      some "cannot join thread before it is started".data ∧
    (udpShutdown (udpShutdown (udpStart udpPluginInit)).1).2 =
      some "cannot join thread before it is started".data ∧
    udpSubmit ⟨2018, 5, 9, 16, 15, 5, 775444⟩
      (udpShutdown (udpStart udpPluginInit)).1 (PyVal.str "mp1".data)
      (PyVal.dt ⟨2018, 5, 9, 16, 15, 6, 1000⟩) (PyVal.str "10".data)
      (PyVal.str "LONG".data) =
      ((udpShutdown (udpStart udpPluginInit)).1, Option.none) ∧
    (udpDrainOnce (udpShutdown (udpStart udpPluginInit)).1).sent = [] :=
  ⟨by rfl, by rfl, by rfl, by rfl⟩

theorem exceptBind_ok_iff {α β : Type} (m : Except Str α)
    (f : α → Except Str β) (b : β) :
    (m >>= f) = Except.ok b ↔ ∃ a, m = Except.ok a ∧ f a = Except.ok b := by
  cases m with
  | error e => simp [Bind.bind, Except.bind]
  | ok a => simp [Bind.bind, Except.bind]

theorem reqKey_ok {f : Option JVal} {v : JVal}
    (h : reqKey f = Except.ok v) : f = some v := by
  cases f with
  | none => simp [reqKey] at h
  | some a => simp [reqKey] at h; rw [h]

theorem getValue_eq_self {f : Option JVal} (h : f ≠ some JVal.null) :
    getValue f = f := by
  cases f with
  | none => rfl
  | some j => cases j <;> first | (exact absurd rfl h) | rfl

theorem readTStamp_fst {p : JVal → Except Str PyDatetime} {f : Option JVal}
    {r : Option JVal × Option PyDatetime} (h : readTStamp p f = Except.ok r)
    (hf : f ≠ some JVal.null) : r.1 = f := by
  cases f with
  | none =>
    rw [readTStamp] at h
    simp only [getValue] at h
    cases h
    rfl
  | some j =>
    rw [readTStamp, getValue_eq_self hf] at h
    simp only [] at h
    cases hp : p j with
    | error e => rw [hp] at h; cases h
    | ok d => rw [hp] at h; cases h; rfl

/-- C1: for every canonical value built by decoding a JSON object with the
five required fields and any subset of the optional fields populated (present
and not JSON `null`), re-encoding yields an object field-for-field equal to
the original — every present field keeps its value, and no absent optional
field appears as a key.  Holds for every implementation of the external enum
and timestamp parsers. -/
theorem iasValue_roundtrip
    (typeFromString modeFromString validityFromString :
      JVal → Except Str JVal)
    (parseTs : JVal → Except Str PyDatetime) (x : JObj) (v : IasValue)
    (hx : populatedOptionals x)
    (h : iasValueFromJson typeFromString modeFromString validityFromString
      parseTs x = Except.ok v) :
    toJSonDict v = x := by
  obtain ⟨f1, f2, f3, f4, f5, f6, f7, f8, f9, f10, f11, f12, f13, f14⟩ := x
  obtain ⟨hdeps, hprops, ht1, ht2, ht3, ht4, ht5, ht6, ht7⟩ := hx
  simp only [iasValueFromJson, exceptBind_ok_iff] at h
  obtain ⟨value, hval, valueTypeStr, hvts, valueTypev, hvt, frid, hfr,
    idv, hid, modeStr, hms, modev, hm, validStr, hvs, validv, hv,
    p1, hp1, p2, hp2, p3, hp3, p4, hp4, p5, hp5, p6, hp6, p7, hp7,
    hfin⟩ := h
  cases hfin
  have e1 := reqKey_ok hval
  have e2 := reqKey_ok hvts
  have e3 := reqKey_ok hfr
  have e4 := reqKey_ok hms
  have e5 := reqKey_ok hvs
  subst e1 e2 e3 e4 e5
  simp only [toJSonDict, getValue_eq_self hdeps, getValue_eq_self hprops,
    readTStamp_fst hp1 ht1, readTStamp_fst hp2 ht2, readTStamp_fst hp3 ht3,
    readTStamp_fst hp4 ht4, readTStamp_fst hp5 ht5, readTStamp_fst hp6 ht6,
    readTStamp_fst hp7 ht7]

theorem iasValue_roundtrip_witness :
    populatedOptionals c1obj ∧
    iasValueFromJson typeFromStringModel enumFromStringModel
      enumFromStringModel parseTsModel c1obj = Except.ok c1value ∧
    toJSonDict c1value = c1obj :=
  by
  have hp : populatedOptionals c1obj := by simp [populatedOptionals, c1obj]
  have hd : iasValueFromJson typeFromStringModel enumFromStringModel
      enumFromStringModel parseTsModel c1obj = Except.ok c1value := by rfl
  exact ⟨hp, hd, iasValue_roundtrip typeFromStringModel enumFromStringModel
    enumFromStringModel parseTsModel c1obj c1value hp hd⟩

/-- C4 (failing input): on the polled batch `[good, bad, good]`, where `bad`
lacks the required `mode` key, the listener is invoked exactly once — for
the record before the malformed one — and the decode error terminates the
poll loop, so the record after the malformed one is never delivered; the
claim promises two invocations, in arrival order, and a loop that keeps
running. -/
theorem pollRecords_stops_at_malformed :
    (pollRecords (iasValueFromJson typeFromStringModel enumFromStringModel
      enumFromStringModel parseTsModel)
      [c4goodRecord, c4badRecord, c4goodRecord]).1.length = 1 ∧
    (pollRecords (iasValueFromJson typeFromStringModel enumFromStringModel
      enumFromStringModel parseTsModel)
      [c4goodRecord, c4badRecord, c4goodRecord]).2 =
      some "KeyError".data :=
  ⟨by rfl, by rfl⟩

theorem isoTimestamp_truncation_witness :
    (⟨2018, 5, 9, 16, 15, 5, 775444⟩ : PyDatetime).microsecond ≠ 0 ∧
    (⟨2018, 5, 9, 16, 15, 5, 775444⟩ : PyDatetime).microsecond < 1000000 ∧
    (isoTimestamp ⟨2018, 5, 9, 16, 15, 5, 775444⟩ =
        Except.ok (isoDatePart ⟨2018, 5, 9, 16, 15, 5, 775444⟩ ++ '.' ::
          padNat 3
            ((⟨2018, 5, 9, 16, 15, 5, 775444⟩ : PyDatetime).microsecond /
              1000)) ∧
      padNat 3
          ((⟨2018, 5, 9, 16, 15, 5, 775444⟩ : PyDatetime).microsecond /
            1000) =
        (padNat 6
          (⟨2018, 5, 9, 16, 15, 5, 775444⟩ : PyDatetime).microsecond).take
          3) :=
  ⟨by decide, by decide,
    isoTimestamp_truncation ⟨2018, 5, 9, 16, 15, 5, 775444⟩ (by decide)
      (by decide)⟩
